import Mathlib

/-!
Shallow embedding of the s3-vector-voxco repository core logic:
the Document model (src/document.py), the similarity ranking utility
(webdemo/utils/similarity.py), the manager workflows
(webdemo/utils/s3_vectors.py) and the store client adapter
(src/s3_vectors_client.py).  Python floats are modelled as real numbers,
Python dicts appearing in fixed shapes as structures, raising/catching
exceptions as `Except`, and the remote listing API as a page function
over an abstract list of stored keys.  Definitions come first, theorems
about the claims afterwards.
-/

/-! ## Document model (src/document.py) -/

/-- A document record: `key`, text `content`, and the embedding vector.
Mirrors the `Document` dataclass. -/
structure Document where
  key : String
  content : String
  embedding : List ℝ

/-- Construction of a `Document`, including the `__post_init__` validation:
raises `ValueError(f"Embedding must be 128 dimensions, got {len}")` when the
embedding length differs from 128.  A raised exception is an `Except.error`
carrying the message. -/
def mkDocument (key content : String) (embedding : List ℝ) : Except String Document :=
  if embedding.length ≠ 128 then
    Except.error ("Embedding must be 128 dimensions, got " ++ toString embedding.length)
  else
    Except.ok { key := key, content := content, embedding := embedding }

/-- The wire-format record produced by `Document.to_s3_vector_format`:
a dict `\x7bkey, data: \x7bfloat32\x7d, metadata: \x7bcontent\x7d\x7d`. -/
structure S3VectorRecord where
  key : String
  dataFloat32 : List ℝ
  metadataContent : String

/-- Projection `Document.to_s3_vector_format`. -/
def Document.to_s3_vector_format (d : Document) : S3VectorRecord :=
  { key := d.key, dataFloat32 := d.embedding, metadataContent := d.content }

/-! ## Similarity utility (webdemo/utils/similarity.py) -/

/-- The `np.dot` of two equal-length float vectors: sum of elementwise
products. -/
def dot_product (vec1 vec2 : List ℝ) : ℝ :=
  (List.zipWith (fun x y => x * y) vec1 vec2).sum

/-- The `np.linalg.norm` of a float vector: square root of the sum of
squares. -/
noncomputable def magnitude (v : List ℝ) : ℝ :=
  Real.sqrt ((v.map (fun x => x * x)).sum)

/-- Embedding of `cosine_similarity`: computes the dot product and the two
norms, returns `0.0` when either norm is zero, and the quotient otherwise. -/
noncomputable def cosine_similarity (vec1 vec2 : List ℝ) : ℝ :=
  if magnitude vec1 = 0 ∨ magnitude vec2 = 0 then 0
  else dot_product vec1 vec2 / (magnitude vec1 * magnitude vec2)

/-- A candidate record passed to `rank_by_similarity`.  The Python code
receives a dict; the fields the code and the spec examples mention are the
wire-format embedding `doc['data']['float32']` (present iff `'data' in doc`
and `'float32' in doc['data']`) and a possible plain `embedding` field,
which the ranking code never reads. -/
structure Candidate where
  dataFloat32 : Option (List ℝ)
  embedding : Option (List ℝ)

/-- The `results` list built by the loop in `rank_by_similarity`: each
candidate carrying a wire-format embedding is paired with its cosine
similarity to the query; candidates without one are skipped (`continue`). -/
noncomputable def scored_results (query_vector : List ℝ) (documents : List Candidate) :
    List (Candidate × ℝ) :=
  documents.filterMap (fun doc =>
    match doc.dataFloat32 with
    | some doc_embedding => some (doc, cosine_similarity query_vector doc_embedding)
    | none => none)

/-- Embedding of `rank_by_similarity`: build the scored list, stable-sort it
in descending score order (`results.sort(key=..., reverse=True)` is a stable
sort, modelled by `List.insertionSort` with the total preorder comparing
scores), and truncate to `top_k`. -/
noncomputable def rank_by_similarity (query_vector : List ℝ) (documents : List Candidate)
    (top_k : Nat) : List (Candidate × ℝ) :=
  ((scored_results query_vector documents).insertionSort
    (fun x y => y.2 ≤ x.2)).take top_k

/-! ## Concrete inputs for the ranking example of the spec -/

/-- The 128-dimensional query vector `[1, 0, ..., 0]`. -/
def c6_query : List ℝ := 1 :: List.replicate 127 0

/-- The 128-dimensional vector `[0, 1, 0, ..., 0]`. -/
def c6_basis2 : List ℝ := 0 :: 1 :: List.replicate 126 0

/-- The first example candidate given as a record with an `embedding` field
(no wire-format `data.float32`). -/
def c6_first_embField : Candidate := { dataFloat32 := none, embedding := some c6_query }

/-- The second example candidate given as a record with an `embedding` field. -/
def c6_second_embField : Candidate := { dataFloat32 := none, embedding := some c6_basis2 }

/-- The first example candidate in the wire format the code actually reads. -/
def c6_first_wire : Candidate := { dataFloat32 := some c6_query, embedding := none }

/-- The second example candidate in the wire format the code actually reads. -/
def c6_second_wire : Candidate := { dataFloat32 := some c6_basis2, embedding := none }

/-! ## Listing and counting (webdemo/utils/s3_vectors.py)

The remote index is modelled as the list of stored records (keys), in
storage order.  `list_vectors` models one `list_vectors` API call with
`maxResults`: it returns one page starting at the continuation position
`start` and a `nextToken` (the next start position) exactly when records
remain beyond the page, matching the pagination contract the code relies
on.  A possible raised exception from the API is modelled by `failAt`: the
zero-based index of the listing call that raises, if any. -/

/-- One call of the paginated listing API over the abstract store. -/
def list_vectors {κ : Type} (store : List κ) (maxResults : Nat) (start : Nat) :
    List κ × Option Nat :=
  ((store.drop start).take maxResults,
    if start + maxResults < store.length then some (start + maxResults) else none)

/-- The `while True` loop of `get_document_count`: issue a listing call with
`maxResults=1000`, extend the accumulated `all_vectors`, and continue while
a `nextToken` is present.  `calls` counts the listing calls made so far;
the result is `len(all_vectors)` paired with the total number of listing
calls, or an error when call number `failAt` raises. -/
def count_loop {κ : Type} (store : List κ) (failAt : Option Nat) (start calls : Nat)
    (acc : List κ) : Except Unit (Nat × Nat) :=
  if failAt = some calls then Except.error ()
  else
    match h : list_vectors store 1000 start with
    | (page, none) => Except.ok ((acc ++ page).length, calls + 1)
    | (page, some nextToken) => count_loop store failAt nextToken (calls + 1) (acc ++ page)
termination_by store.length - start
decreasing_by
  simp only [list_vectors, Prod.mk.injEq] at h
  obtain ⟨-, h2⟩ := h
  split_ifs at h2 with hc
  injection h2 with h3
  omega

/-- Embedding of `get_document_count`: run the counting loop from the start
of the listing; a raised exception is caught and `0` is returned. -/
def get_document_count {κ : Type} (store : List κ) (failAt : Option Nat) : Nat :=
  match count_loop store failAt 0 0 [] with
  | Except.error _ => 0
  | Except.ok (n, _) => n

/-- The number of listing calls a successful `get_document_count` run makes
(an observable of the embedding, used to state the pagination claim). -/
def get_document_count_calls {κ : Type} (store : List κ) : Nat :=
  match count_loop store none 0 0 [] with
  | Except.error _ => 0
  | Except.ok (_, c) => c

/-! ## Deletion (webdemo/utils/s3_vectors.py, src/s3_vectors_client.py) -/

/-- Embedding of `S3VectorsClient.delete_documents`: the store drops every
record whose key is among `keys`. -/
def delete_documents {κ : Type} [DecidableEq κ] (store : List κ) (keys : List κ) : List κ :=
  store.filter (fun k => k ∉ keys)

/-- Embedding of `delete_all_documents`: one listing call with
`maxResults=1000` (no continuation-token follow-up), then delete the keys
of that single page and return their number; an empty page returns 0.  A
raised store call (`listingFails`) is caught and 0 is returned, so the
function itself never raises.  The value is the store after the operation
paired with the returned count. -/
def delete_all_documents {κ : Type} [DecidableEq κ] (store : List κ)
    (listingFails : Bool) : Except Unit (List κ × Nat) :=
  if listingFails then Except.ok (store, 0)
  else
    let page := store.take 1000
    if page.isEmpty then Except.ok (store, 0)
    else Except.ok (delete_documents store page, page.length)

/-! ## Search workflow (webdemo/utils/s3_vectors.py) -/

/-- One raw match returned by the `query_vectors` call: `key`, metadata
`content`, and `distance`, each possibly absent. -/
structure RawResult where
  key : Option String
  metadataContent : Option String
  distance : Option ℝ

/-- One entry of the list `search_documents` returns: the projection
`\x7bkey, content, distance, metadata\x7d` with `'N/A'` default content. -/
structure EnrichedResult where
  key : Option String
  content : String
  distance : Option ℝ
  metadataContent : Option String

/-- The per-result projection in the `search_documents` loop. -/
def enrich_result (r : RawResult) : EnrichedResult :=
  { key := r.key
    content := r.metadataContent.getD "N/A"
    distance := r.distance
    metadataContent := r.metadataContent }

/-- Embedding of `S3VectorsManager.search_documents`: the `query_vectors`
call either returns raw matches or raises; the code projects the matches,
and catches any exception, returning `[]`.  The `Except` codomain records
whether the function itself raises (it never does). -/
def search_documents (queryResult : Except Unit (List RawResult)) :
    Except Unit (List EnrichedResult) :=
  match queryResult with
  | Except.error _ => Except.ok []
  | Except.ok results => Except.ok (results.map enrich_result)

/-! ## Insert workflow and create operations (src/s3_vectors_client.py) -/

/-- Embedding of `S3VectorsClient.insert_documents`: the `put_vectors` call
either succeeds or raises a `ClientError`, which is logged and re-raised. -/
def insert_documents {ρ : Type} (callResult : Except Unit ρ) : Except Unit ρ :=
  match callResult with
  | Except.error e => Except.error e
  | Except.ok r => Except.ok r

/-- The summary dict returned by `S3VectorsManager.add_document`. -/
structure AddDocumentResult where
  id : String
  content : String
  success : Bool

/-- Embedding of `S3VectorsManager.add_document`: inserts the built record
through the client; there is no try/except here, so a raised insertion
error propagates to the caller. -/
def add_document (insertResult : Except Unit Unit) (key content : String) :
    Except Unit AddDocumentResult :=
  match insert_documents insertResult with
  | Except.error e => Except.error e
  | Except.ok _ => Except.ok { id := key, content := content, success := true }

/-- A `botocore` `ClientError` with its error code
`e.response.get('Error', \x7b\x7d).get('Code', '')`. -/
structure ClientError where
  code : String

/-- The result of a create operation: the raw store response passed
through, or the `\x7b'Status': 'AlreadyExists'\x7d` success value. -/
inductive CreateOutcome (ρ : Type) where
  | response : ρ → CreateOutcome ρ
  | alreadyExists : CreateOutcome ρ

/-- Embedding of `S3VectorsClient.create_bucket`: a `ClientError` whose code
is `BucketAlreadyExists` or `ConflictException` is converted to the
`AlreadyExists` success value; any other error is re-raised. -/
def create_bucket {ρ : Type} (callResult : Except ClientError ρ) :
    Except ClientError (CreateOutcome ρ) :=
  match callResult with
  | Except.ok r => Except.ok (CreateOutcome.response r)
  | Except.error e =>
    if e.code = "BucketAlreadyExists" ∨ e.code = "ConflictException" then
      Except.ok CreateOutcome.alreadyExists
    else Except.error e

/-- Embedding of `S3VectorsClient.create_index`: a `ClientError` whose code
is `IndexAlreadyExists` or `ConflictException` is converted to the
`AlreadyExists` success value; any other error is re-raised.  The fixed
`time.sleep(2)` after creation is a real-time effect outside the model. -/
def create_index {ρ : Type} (callResult : Except ClientError ρ) :
    Except ClientError (CreateOutcome ρ) :=
  match callResult with
  | Except.ok r => Except.ok (CreateOutcome.response r)
  | Except.error e =>
    if e.code = "IndexAlreadyExists" ∨ e.code = "ConflictException" then
      Except.ok CreateOutcome.alreadyExists
    else Except.error e

/-! ## Claims C1 and C2 -/

/-- C1: constructing a `Document` with embedding `e` succeeds iff
`e.length = 128`, and otherwise fails with the dimension-mismatch error
message carrying the actual length. -/
theorem C1_document_dimension_validation (key content : String) (e : List ℝ) :
    ((mkDocument key content e).isOk ↔ e.length = 128) ∧
    (e.length ≠ 128 →
      mkDocument key content e =
        Except.error ("Embedding must be 128 dimensions, got " ++ toString e.length)) := by
  constructor
  · constructor
    · intro h
      by_contra hne
      simp [mkDocument, hne, Except.isOk, Except.toBool] at h
    · intro h
      simp [mkDocument, h, Except.isOk, Except.toBool]
  · intro h
    simp [mkDocument, h]

/-- Witness for C1 at the empty embedding (length 0). -/
theorem C1_document_dimension_validation_witness :
    mkDocument "k" "c" ([] : List ℝ) =
      Except.error ("Embedding must be 128 dimensions, got " ++ toString (0 : Nat)) :=
  (C1_document_dimension_validation "k" "c" []).2 (by decide)

/-- C2: for an embedding of length 128 construction succeeds and the
wire-format projection round-trips: `data.float32` is the embedding,
`metadata.content` is the content, and the record key is the document key. -/
theorem C2_to_s3_vector_format_roundtrip (key content : String) (e : List ℝ)
    (h : e.length = 128) :
    ∃ d : Document, mkDocument key content e = Except.ok d ∧
      d.to_s3_vector_format.dataFloat32 = e ∧
      d.to_s3_vector_format.metadataContent = content ∧
      d.to_s3_vector_format.key = d.key := by
  refine ⟨{ key := key, content := content, embedding := e }, ?_, rfl, rfl, rfl⟩
  simp [mkDocument, h]

/-- Witness for C2 at the all-zero embedding of length 128. -/
theorem C2_to_s3_vector_format_roundtrip_witness :
    ∃ d : Document, mkDocument "k" "c" (List.replicate 128 (0 : ℝ)) = Except.ok d ∧
      d.to_s3_vector_format.dataFloat32 = List.replicate 128 (0 : ℝ) ∧
      d.to_s3_vector_format.metadataContent = "c" ∧
      d.to_s3_vector_format.key = d.key :=
  C2_to_s3_vector_format_roundtrip "k" "c" (List.replicate 128 (0 : ℝ)) (by simp)

/-! ## Claim C8 -/

/-- C8: for equal-length vectors, `cosine_similarity` returns 0 when either
vector has zero magnitude; otherwise it returns the dot product divided by
the product of the magnitudes, and that denominator is nonzero. -/
theorem C8_cosine_zero_magnitude_policy (a b : List ℝ) (h : a.length = b.length) :
    (magnitude a = 0 ∨ magnitude b = 0 → cosine_similarity a b = 0) ∧
    (magnitude a ≠ 0 → magnitude b ≠ 0 →
      cosine_similarity a b = dot_product a b / (magnitude a * magnitude b) ∧
      magnitude a * magnitude b ≠ 0) := by
  constructor
  · intro hz
    simp [cosine_similarity, hz]
  · intro ha hb
    constructor
    · simp [cosine_similarity, ha, hb]
    · exact mul_ne_zero ha hb

/-- Witness for C8 at the pair of one-element vectors `[1]`, `[1]`. -/
theorem C8_cosine_zero_magnitude_policy_witness :
    (magnitude [(1 : ℝ)] = 0 ∨ magnitude [(1 : ℝ)] = 0 →
      cosine_similarity [(1 : ℝ)] [(1 : ℝ)] = 0) ∧
    (magnitude [(1 : ℝ)] ≠ 0 → magnitude [(1 : ℝ)] ≠ 0 →
      cosine_similarity [(1 : ℝ)] [(1 : ℝ)] =
        dot_product [(1 : ℝ)] [(1 : ℝ)] / (magnitude [(1 : ℝ)] * magnitude [(1 : ℝ)]) ∧
      magnitude [(1 : ℝ)] * magnitude [(1 : ℝ)] ≠ 0) :=
  C8_cosine_zero_magnitude_policy [(1 : ℝ)] [(1 : ℝ)] rfl

/-! ## Stable-sort helper lemmas -/

/-- Inserting a pair whose score equals `s` prepends it to the score-`s`
subsequence: every element skipped over has a strictly larger score. -/
theorem filter_orderedInsert_score_eq {α : Type} (s : ℝ) (a : α × ℝ) (ha : a.2 = s)
    (t : List (α × ℝ)) :
    (t.orderedInsert (fun x y => y.2 ≤ x.2) a).filter (fun p => p.2 = s) =
      a :: t.filter (fun p => p.2 = s) := by
  induction t with
  | nil => simp [List.orderedInsert, ha]
  | cons b t ih =>
    rw [List.orderedInsert]
    by_cases hb : b.2 ≤ a.2
    · rw [if_pos hb]
      simp [ha]
    · rw [if_neg hb]
      have hbs : ¬ b.2 = s := fun hcon => hb (le_of_eq (ha ▸ hcon))
      simp only [List.filter_cons]
      simp [hbs, ih]

/-- Inserting a pair whose score differs from `s` leaves the score-`s`
subsequence unchanged. -/
theorem filter_orderedInsert_score_ne {α : Type} (s : ℝ) (a : α × ℝ) (ha : ¬ a.2 = s)
    (t : List (α × ℝ)) :
    (t.orderedInsert (fun x y => y.2 ≤ x.2) a).filter (fun p => p.2 = s) =
      t.filter (fun p => p.2 = s) := by
  induction t with
  | nil => simp [List.orderedInsert, ha]
  | cons b t ih =>
    rw [List.orderedInsert]
    by_cases hb : b.2 ≤ a.2
    · rw [if_pos hb]
      simp [ha]
    · rw [if_neg hb]
      simp only [List.filter_cons]
      by_cases hbs : b.2 = s <;> simp [hbs, ih]

/-- Stability of the descending-score insertion sort: for each score `s`,
the subsequence of elements with score `s` is unchanged by sorting. -/
theorem filter_insertionSort_score {α : Type} (s : ℝ) (l : List (α × ℝ)) :
    ((l.insertionSort (fun x y => y.2 ≤ x.2)).filter (fun p => p.2 = s)) =
      l.filter (fun p => p.2 = s) := by
  induction l with
  | nil => rfl
  | cons a l ih =>
    rw [List.insertionSort]
    by_cases ha : a.2 = s
    · rw [filter_orderedInsert_score_eq s a ha, ih]
      simp [ha]
    · rw [filter_orderedInsert_score_ne s a ha, ih]
      simp [ha]

/-- The candidates of the scored list, in order, are exactly the input
candidates that carry a wire-format embedding. -/
theorem scored_results_map_fst (q : List ℝ) (docs : List Candidate) :
    (scored_results q docs).map Prod.fst =
      docs.filter (fun d => d.dataFloat32.isSome) := by
  induction docs with
  | nil => rfl
  | cons d docs ih =>
    cases hd : d.dataFloat32 <;>
      simp [scored_results, List.filterMap_cons, hd, List.filter_cons] <;>
      simpa [scored_results] using ih

/-! ## Claim C5 -/

/-- C5: `rank_by_similarity` returns at most `top_k` pairs, sorted in
descending score order; every returned pair is a candidate carrying a
wire-format embedding; with no truncation the returned candidates are
exactly those carrying an embedding; and sorting is stable, so pairs of
equal score keep their input order. -/
theorem C5_rank_by_similarity_contract (q : List ℝ) (docs : List Candidate) (k : Nat) :
    (rank_by_similarity q docs k).length ≤ k ∧
    List.Pairwise (fun x y : Candidate × ℝ => y.2 ≤ x.2) (rank_by_similarity q docs k) ∧
    (∀ p ∈ rank_by_similarity q docs k, p.1.dataFloat32.isSome) ∧
    ((rank_by_similarity q docs docs.length).map Prod.fst).Perm
      (docs.filter (fun d => d.dataFloat32.isSome)) ∧
    (∀ s : ℝ, (rank_by_similarity q docs docs.length).filter (fun p => p.2 = s) =
      (scored_results q docs).filter (fun p => p.2 = s)) := by
  haveI : IsTotal (Candidate × ℝ) (fun x y => y.2 ≤ x.2) := ⟨fun a b => le_total b.2 a.2⟩
  haveI : IsTrans (Candidate × ℝ) (fun x y => y.2 ≤ x.2) :=
    ⟨fun _ _ _ hab hbc => le_trans hbc hab⟩
  have hlen : (scored_results q docs).length ≤ docs.length :=
    List.length_filterMap_le _ _
  have htake :
      ((scored_results q docs).insertionSort (fun x y => y.2 ≤ x.2)).take docs.length =
        (scored_results q docs).insertionSort (fun x y => y.2 ≤ x.2) :=
    List.take_of_length_le (by rw [List.length_insertionSort]; exact hlen)
  refine ⟨List.length_take_le _ _, ?_, ?_, ?_, ?_⟩
  · exact (List.sorted_insertionSort _ _).sublist (List.take_sublist _ _)
  · intro p hp
    have hp1 : p ∈ (scored_results q docs).insertionSort (fun x y => y.2 ≤ x.2) :=
      List.mem_of_mem_take hp
    have hp2 : p ∈ scored_results q docs := (List.mem_insertionSort _).1 hp1
    rw [scored_results] at hp2
    obtain ⟨doc, _, hf⟩ := List.mem_filterMap.mp hp2
    cases hdd : doc.dataFloat32 with
    | none => rw [hdd] at hf; exact absurd hf (by simp)
    | some e =>
      rw [hdd] at hf
      simp only [Option.some.injEq] at hf
      rw [← hf]
      simp [hdd]
  · rw [rank_by_similarity, htake]
    exact scored_results_map_fst q docs ▸
      ((List.perm_insertionSort (fun x y => y.2 ≤ x.2) (scored_results q docs)).map Prod.fst)
  · intro s
    rw [rank_by_similarity, htake, filter_insertionSort_score]

/-! ## Claim C6: the concrete ranking example -/

/-- The query vector has magnitude 1. -/
theorem magnitude_c6_query : magnitude c6_query = 1 := by
  simp [magnitude, c6_query, List.sum_replicate]

/-- The second basis vector has magnitude 1. -/
theorem magnitude_c6_basis2 : magnitude c6_basis2 = 1 := by
  simp [magnitude, c6_basis2, List.sum_replicate]

/-- The dot product of the query with itself is 1. -/
theorem dot_c6_query_self : dot_product c6_query c6_query = 1 := by
  simp [dot_product, c6_query, List.zipWith_replicate, List.sum_replicate]

/-- The dot product of the query with the second basis vector is 0. -/
theorem dot_c6_query_basis2 : dot_product c6_query c6_basis2 = 0 := by
  have hrep : List.replicate 127 (0 : ℝ) = 0 :: List.replicate 126 0 := rfl
  simp [dot_product, c6_query, c6_basis2, hrep, List.zipWith_replicate, List.sum_replicate]

/-- The cosine similarity of the query with itself is 1. -/
theorem cosine_c6_query_self : cosine_similarity c6_query c6_query = 1 := by
  rw [cosine_similarity, magnitude_c6_query, dot_c6_query_self]
  norm_num

/-- The cosine similarity of the query with the second basis vector is 0. -/
theorem cosine_c6_query_basis2 : cosine_similarity c6_query c6_basis2 = 0 := by
  rw [cosine_similarity, magnitude_c6_query, magnitude_c6_basis2, dot_c6_query_basis2]
  norm_num

/-- C6 counterexample: on candidates given as records with an `embedding`
field (as the claim states them), `rank_by_similarity` returns the empty
list, not one entry with score 1.0 — the code only reads
`doc['data']['float32']` and skips both candidates. -/
theorem C6_counterexample_embedding_field :
    rank_by_similarity c6_query [c6_first_embField, c6_second_embField] 1 = [] ∧
    rank_by_similarity c6_query [c6_first_embField, c6_second_embField] 1 ≠
      [(c6_first_embField, 1)] := by
  constructor
  · rfl
  · intro hcon
    have h0 : ([] : List (Candidate × ℝ)) = [(c6_first_embField, 1)] := by
      rw [← hcon]; rfl
    simp at h0

/-- C6 amended: with the two candidates given in the wire format the code
reads (`data.float32`), `rank_by_similarity` with `top_k = 1` returns
exactly one entry, the first candidate with score 1.0. -/
theorem C6_rank_example_wire_format :
    rank_by_similarity c6_query [c6_first_wire, c6_second_wire] 1 =
      [(c6_first_wire, 1)] := by
  have hs : scored_results c6_query [c6_first_wire, c6_second_wire] =
      [(c6_first_wire, 1), (c6_second_wire, 0)] := by
    simp [scored_results, c6_first_wire, c6_second_wire,
      cosine_c6_query_self, cosine_c6_query_basis2]
  rw [rank_by_similarity, hs]
  have h01 : ((c6_second_wire, (0 : ℝ)).2 : ℝ) ≤ (c6_first_wire, (1 : ℝ)).2 := by
    norm_num
  simp [List.insertionSort, List.orderedInsert, h01]

/-! ## Pagination lemmas for the counting loop -/

/-- One-step unfolding of the counting loop: the page is
`(store.drop start).take 1000` and the loop continues exactly when a
continuation token is returned, i.e. when records remain past the page. -/
theorem count_loop_eq {κ : Type} (store : List κ) (failAt : Option Nat) (start calls : Nat)
    (acc : List κ) :
    count_loop store failAt start calls acc =
      if failAt = some calls then Except.error ()
      else if start + 1000 < store.length then
        count_loop store failAt (start + 1000) (calls + 1) (acc ++ (store.drop start).take 1000)
      else Except.ok ((acc ++ (store.drop start).take 1000).length, calls + 1) := by
  by_cases hf : failAt = some calls
  · rw [count_loop]
    simp [hf]
  · rw [count_loop, if_neg hf, if_neg hf]
    split
    next page htok =>
      simp only [list_vectors, Prod.mk.injEq] at htok
      obtain ⟨hpage, htok2⟩ := htok
      split_ifs at htok2 with hc
      rw [if_neg hc, hpage]
    next page nextToken htok =>
      simp only [list_vectors, Prod.mk.injEq] at htok
      obtain ⟨hpage, htok2⟩ := htok
      split_ifs at htok2 with hc
      injection htok2 with h3
      rw [if_pos hc, hpage, h3]

/-- A failure-free counting run returns the number of remaining records and
makes `(remaining - 1) / 1000 + 1` further listing calls. -/
theorem count_loop_none_aux {κ : Type} (store : List κ) :
    ∀ (rem start calls : Nat) (acc : List κ), store.length - start ≤ rem →
      count_loop store none start calls acc =
        Except.ok (acc.length + (store.length - start),
          calls + ((store.length - start - 1) / 1000 + 1)) := by
  intro rem
  induction rem with
  | zero =>
    intro start calls acc h0
    rw [count_loop_eq]
    rw [if_neg (by simp), if_neg (by omega)]
    simp only [List.length_append, List.length_take, List.length_drop, Except.ok.injEq,
      Prod.mk.injEq]
    omega
  | succ rem ih =>
    intro start calls acc hle
    rw [count_loop_eq, if_neg (by simp)]
    by_cases hc : start + 1000 < store.length
    · rw [if_pos hc, ih (start + 1000) (calls + 1) _ (by omega)]
      simp only [List.length_append, List.length_take, List.length_drop, Except.ok.injEq,
        Prod.mk.injEq]
      omega
    · rw [if_neg hc]
      simp only [List.length_append, List.length_take, List.length_drop, Except.ok.injEq,
        Prod.mk.injEq]
      omega

/-- When the listing call with index `k` lies within the calls the loop
makes, the loop raises (propagates the listing exception). -/
theorem count_loop_fail_aux {κ : Type} (store : List κ) (k : Nat) :
    ∀ (rem start calls : Nat) (acc : List κ), store.length - start ≤ rem →
      calls ≤ k → k < calls + ((store.length - start - 1) / 1000 + 1) →
      count_loop store (some k) start calls acc = Except.error () := by
  intro rem
  induction rem with
  | zero =>
    intro start calls acc h0 hck hkq
    rw [count_loop_eq, if_pos (by simp only [Option.some.injEq]; omega)]
  | succ rem ih =>
    intro start calls acc hle hck hkq
    by_cases hk : k = calls
    · rw [count_loop_eq, if_pos (by simp [hk])]
    · have hck1 : calls + 1 ≤ k := by omega
      have hc : start + 1000 < store.length := by omega
      rw [count_loop_eq, if_neg (by simp; omega), if_pos hc]
      exact ih (start + 1000) (calls + 1) _ (by omega) hck1 (by omega)

/-- A failure-free `get_document_count` returns the store size. -/
theorem get_document_count_none {κ : Type} (store : List κ) :
    get_document_count store none = store.length := by
  rw [get_document_count, count_loop_none_aux store (store.length) 0 0 [] (by omega)]
  simp

/-- The number of listing calls of a failure-free counting run. -/
theorem get_document_count_calls_eq {κ : Type} (store : List κ) :
    get_document_count_calls store = (store.length - 1) / 1000 + 1 := by
  rw [get_document_count_calls, count_loop_none_aux store (store.length) 0 0 [] (by omega)]
  simp

/-! ## Claim C4 -/

/-- C4: `get_document_count` follows continuation tokens to exhaustion and
returns the total number of stored records; on a store of 2500 records it
makes exactly 3 listing calls and returns 2500. -/
theorem C4_get_document_count_pagination {κ : Type} (store : List κ) :
    get_document_count store none = store.length ∧
    get_document_count (List.replicate 2500 (0 : Nat)) none = 2500 ∧
    get_document_count_calls (List.replicate 2500 (0 : Nat)) = 3 := by
  refine ⟨get_document_count_none store, ?_, ?_⟩
  · rw [get_document_count_none, List.length_replicate]
  · rw [get_document_count_calls_eq, List.length_replicate]

/-! ## Claim C10 -/

/-- C10: when an underlying listing call raises (a failing call index that
the run actually reaches), `get_document_count` catches the exception and
returns 0 — the same value a successful run over an empty store returns, so
0 is indistinguishable from a listing failure at this interface. -/
theorem C10_count_failure_returns_zero {κ : Type} (store : List κ) (k : Nat)
    (h : k < get_document_count_calls store) :
    get_document_count store (some k) = 0 ∧
    get_document_count ([] : List κ) none = 0 := by
  constructor
  · rw [get_document_count_calls_eq] at h
    rw [get_document_count,
      count_loop_fail_aux store k store.length 0 0 [] (by omega) (by omega) (by omega)]
  · rw [get_document_count_none]
    rfl

/-- Witness for C10: a one-record store whose single (first) listing call
raises yields count 0, as does a successful run on the empty store. -/
theorem C10_count_failure_returns_zero_witness :
    get_document_count [(0 : Nat)] (some 0) = 0 ∧
    get_document_count ([] : List Nat) none = 0 :=
  C10_count_failure_returns_zero [(0 : Nat)] 0
    (by rw [get_document_count_calls_eq]; norm_num)

/-! ## Claim C3 -/

/-- Deleting the first listing page from a duplicate-free store leaves
exactly the records beyond the page. -/
theorem delete_documents_take {κ : Type} [DecidableEq κ] (store : List κ)
    (h : store.Nodup) :
    delete_documents store (store.take 1000) = store.drop 1000 := by
  have hdisj : (store.take 1000).Disjoint (store.drop 1000) :=
    List.disjoint_take_drop h le_rfl
  set t := store.take 1000 with ht
  set d := store.drop 1000 with hd
  have hsplit : store = t ++ d := by
    rw [ht, hd, List.take_append_drop]
  have h1 : t.filter (fun k => k ∉ t) = [] := by
    rw [List.filter_eq_nil_iff]
    intro a ha
    simp [ha]
  have h2 : d.filter (fun k => k ∉ t) = d := by
    rw [List.filter_eq_self]
    intro a ha
    simpa using fun hmem => hdisj hmem ha
  rw [delete_documents, hsplit, List.filter_append, h1, h2, List.nil_append]

/-- C3: `delete_all_documents` drains a single bounded page: it deletes
exactly the (up to 1000) keys of the first listing page and returns their
number, so when the store holds more than one page of records the records
beyond the first page are not deleted. -/
theorem C3_delete_all_single_page {κ : Type} [DecidableEq κ] (store : List κ)
    (h : store.Nodup) :
    delete_all_documents store false =
      Except.ok (store.drop 1000, min 1000 store.length) ∧
    (1000 < store.length → store.drop 1000 ≠ []) := by
  constructor
  · rw [delete_all_documents]
    by_cases hemp : store = []
    · subst hemp
      simp
    · have hpage : (store.take 1000).isEmpty = false := by
        simp [List.isEmpty_iff, List.take_eq_nil_iff, hemp]
      simp only [Bool.false_eq_true, if_false, hpage]
      rw [delete_documents_take store h, List.length_take]
  · intro hlen
    rw [ne_eq, List.drop_eq_nil_iff]
    omega

/-- Witness for C3 on a duplicate-free store of 1001 records: one record
survives the delete-all. -/
theorem C3_delete_all_single_page_witness :
    delete_all_documents (List.range 1001) false =
      Except.ok ((List.range 1001).drop 1000, min 1000 (List.range 1001).length) ∧
    (1000 < (List.range 1001).length → (List.range 1001).drop 1000 ≠ []) :=
  C3_delete_all_single_page (List.range 1001) (List.nodup_range 1001)

/-! ## Claim C7 -/

/-- C7 counterexample: a raised store call inside `search_documents` or
`delete_all_documents` does NOT propagate — `search_documents` returns the
default `[]` and `delete_all_documents` returns count 0 with the store
untouched. -/
theorem C7_counterexample_caught_defaults :
    search_documents (Except.error ()) = Except.ok [] ∧
    search_documents (Except.error ()) ≠ Except.error () ∧
    delete_all_documents [(0 : Nat)] true = Except.ok ([0], 0) := by
  refine ⟨rfl, ?_, rfl⟩
  intro hcon
  exact Except.noConfusion hcon

/-- C7 amended: the client layer re-raises store failures and the manager's
insert workflow propagates them, but the manager's `search_documents` and
`delete_all_documents` catch exceptions and return the defaults `[]` and 0. -/
theorem C7_error_propagation_policy :
    (∀ r : Except Unit Unit, insert_documents r = r) ∧
    (∀ key content, add_document (Except.error ()) key content = Except.error ()) ∧
    (∀ e : Unit, search_documents (Except.error e) = Except.ok []) ∧
    (∀ store : List Nat, delete_all_documents store true = Except.ok (store, 0)) := by
  refine ⟨?_, ?_, ?_, ?_⟩
  · intro r
    cases r <;> rfl
  · intro key content
    rfl
  · intro e
    rfl
  · intro store
    rfl

/-! ## Claim C9 -/

/-- C9: `create_bucket` and `create_index` are idempotent — an
already-exists/conflict `ClientError` becomes the `AlreadyExists` success
value, a successful response passes through, and every other error code is
re-raised. -/
theorem C9_create_idempotency {ρ : Type} :
    (∀ r : ρ, create_bucket (Except.ok r) = Except.ok (CreateOutcome.response r)) ∧
    (∀ e : ClientError, e.code = "BucketAlreadyExists" ∨ e.code = "ConflictException" →
      (create_bucket (Except.error e) : Except ClientError (CreateOutcome ρ)) =
        Except.ok CreateOutcome.alreadyExists) ∧
    (∀ e : ClientError, e.code ≠ "BucketAlreadyExists" → e.code ≠ "ConflictException" →
      (create_bucket (Except.error e) : Except ClientError (CreateOutcome ρ)) =
        Except.error e) ∧
    (∀ r : ρ, create_index (Except.ok r) = Except.ok (CreateOutcome.response r)) ∧
    (∀ e : ClientError, e.code = "IndexAlreadyExists" ∨ e.code = "ConflictException" →
      (create_index (Except.error e) : Except ClientError (CreateOutcome ρ)) =
        Except.ok CreateOutcome.alreadyExists) ∧
    (∀ e : ClientError, e.code ≠ "IndexAlreadyExists" → e.code ≠ "ConflictException" →
      (create_index (Except.error e) : Except ClientError (CreateOutcome ρ)) =
        Except.error e) := by
  refine ⟨fun r => rfl, ?_, ?_, fun r => rfl, ?_, ?_⟩
  · intro e he
    simp only [create_bucket]
    rw [if_pos he]
  · intro e h1 h2
    simp [create_bucket, h1, h2]
  · intro e he
    simp only [create_index]
    rw [if_pos he]
  · intro e h1 h2
    simp [create_index, h1, h2]

/-- Witness for C9 at concrete error codes: `ConflictException` and
`IndexAlreadyExists` become `AlreadyExists`; `AccessDenied` and
`Throttling` propagate. -/
theorem C9_create_idempotency_witness :
    (create_bucket (Except.error { code := "ConflictException" }) :
      Except ClientError (CreateOutcome Unit)) = Except.ok CreateOutcome.alreadyExists ∧
    (create_bucket (Except.error { code := "AccessDenied" }) :
      Except ClientError (CreateOutcome Unit)) =
        Except.error { code := "AccessDenied" } ∧
    (create_index (Except.error { code := "IndexAlreadyExists" }) :
      Except ClientError (CreateOutcome Unit)) = Except.ok CreateOutcome.alreadyExists ∧
    (create_index (Except.error { code := "Throttling" }) :
      Except ClientError (CreateOutcome Unit)) =
        Except.error { code := "Throttling" } :=
  ⟨(C9_create_idempotency (ρ := Unit)).2.1 { code := "ConflictException" } (Or.inr rfl),
   (C9_create_idempotency (ρ := Unit)).2.2.1 { code := "AccessDenied" }
     (by decide) (by decide),
   (C9_create_idempotency (ρ := Unit)).2.2.2.2.1 { code := "IndexAlreadyExists" }
     (Or.inl rfl),
   (C9_create_idempotency (ρ := Unit)).2.2.2.2.2 { code := "Throttling" }
     (by decide) (by decide)⟩

/-- Witness for C5 at a concrete (empty) query and candidate list. -/
theorem C5_rank_by_similarity_contract_witness :
    (rank_by_similarity ([] : List ℝ) ([] : List Candidate) 1).length ≤ 1 ∧
    List.Pairwise (fun x y : Candidate × ℝ => y.2 ≤ x.2)
      (rank_by_similarity ([] : List ℝ) ([] : List Candidate) 1) ∧
    (∀ p ∈ rank_by_similarity ([] : List ℝ) ([] : List Candidate) 1,
      p.1.dataFloat32.isSome) ∧
    ((rank_by_similarity ([] : List ℝ) ([] : List Candidate)
        ([] : List Candidate).length).map Prod.fst).Perm
      (([] : List Candidate).filter (fun d => d.dataFloat32.isSome)) ∧
    (∀ s : ℝ, (rank_by_similarity ([] : List ℝ) ([] : List Candidate)
        ([] : List Candidate).length).filter (fun p => p.2 = s) =
      (scored_results ([] : List ℝ) ([] : List Candidate)).filter (fun p => p.2 = s)) :=
  C5_rank_by_similarity_contract ([] : List ℝ) ([] : List Candidate) 1
